import Mathlib

/-!
# Verification of the QR-code redirect and enrichment core

Shallow embedding of the QR-code Shopify app's server model
(`app/models/QRCode.server.js`) and the public scan route
(`app/routes/qrcodes.$id.scan.tsx`), together with proofs of the
specification's testable properties.

The persistent store is modelled as a list of rows; the remote GraphQL
product query, the `qrcode` image library and the WHATWG `URL` resolver are
external collaborators and are passed in as function/value parameters, which
matches the dependency-injection reading of the specification.
-/

namespace ShopifyQR

/-- A persisted `QRCode` row.  Field list follows the data model: identity,
owning shop domain, display title, remote product id, remote variant id,
product handle, destination kind, scan counter, creation timestamp. -/
structure QRCodeRecord where
  id : Nat
  shop : String
  title : String
  productId : String
  productVariantId : String
  productHandle : String
  destination : String
  scans : Nat
  createdAt : Nat
  deriving DecidableEq, Repr

/-! ## Destination URL resolution (`getDestinationUrl`)

The JS code runs `/gid:\/\/shopify\/ProductVariant\/([0-9]+)/.exec(...)`:
an unanchored search for the literal `gid://shopify/ProductVariant/`
followed by a maximal nonempty run of decimal digits, anywhere in the
string.  `invariant(match, ...)` throws when there is no match, which we
model with `Option`. -/

/-- The literal part of the variant-id pattern, as a character list. -/
def pvLiteral : List Char := "gid://shopify/ProductVariant/".data

/-- `dropLeading p s` returns `some rest` when `s = p ++ rest`, else `none`
(matching a literal at the current position of a regex scan). -/
def dropLeading : List Char → List Char → Option (List Char)
  | [], s => some s
  | _ :: _, [] => none
  | p :: ps, c :: cs => if p = c then dropLeading ps cs else none

/-- Leftmost match of the regex `gid:\/\/shopify\/ProductVariant\/([0-9]+)`:
at each position, try the literal followed by at least one digit; on success
capture the maximal digit run, else advance one character. Returns the
captured digit group. -/
def execPV : List Char → Option (List Char)
  | [] => none
  | c :: tail =>
    match dropLeading pvLiteral (c :: tail) with
    | some rest =>
      if rest.takeWhile Char.isDigit = [] then execPV tail
      else some (rest.takeWhile Char.isDigit)
    | none => execPV tail

/-- The regex has a match in `s` exactly when some position of `s` starts
with the literal followed by at least one digit. -/
def ContainsPV (s : List Char) : Prop :=
  ∃ pre c rest, s = pre ++ pvLiteral ++ (c :: rest) ∧ c.isDigit = true

/-- `getDestinationUrl(qrCode)`: extract the numeric variant id with the
regex and build `https://${qrCode.shop}/cart/${variantIdNumber}:1`;
`none` models the thrown `invariant` ("Unrecognized product variant ID"). -/
def getDestinationUrl (q : QRCodeRecord) : Option String :=
  match execPV q.productVariantId.data with
  | none => none
  | some d => some ("https://" ++ q.shop ++ "/cart/" ++ String.mk d ++ ":1")

/-! ## Spec-side shape of a variant identifier (for claim C2) -/

/-- Numeric value of a decimal digit string. -/
def digitsVal (l : List Char) : Nat :=
  l.foldl (fun a c => a * 10 + (c.toNat - '0'.toNat)) 0

/-- Formalised from the claim's words, for comparison with the code: the
whole identifier decomposes as `<platform-namespace>/ProductVariant/<positive-integer>`,
i.e. some namespace, the literal `/ProductVariant/`, then a nonempty digit
string of positive numeric value, with nothing after it. -/
def SpecVariantShape (s : String) : Prop :=
  ∃ ns ds : List Char, s.data = ns ++ "/ProductVariant/".data ++ ds ∧
    ds ≠ [] ∧ (∀ c ∈ ds, c.isDigit = true) ∧ 0 < digitsVal ds

/-- Convenient builder for concrete rows in witnesses and counterexamples. -/
def mkRecord (id : Nat) (shop productVariantId : String) : QRCodeRecord :=
  { id := id, shop := shop, title := "Reorder QR", productId := "gid://shopify/Product/1",
    productVariantId := productVariantId, productHandle := "example-product",
    destination := "checkout", scans := 0, createdAt := 0 }

/-! ## Scan recording (`recordScan`)

`recordScan(qrCode)` runs a Prisma `update` on the unique row whose `id`
matches, with `data: { scans: { increment: 1 } }`.  The store is modelled as
a list of rows and the update as a pointwise map; `id` is the primary key,
so theorems assume the stored ids are distinct. -/

/-- One `recordScan` call for the row with the given id. -/
def recordScan (store : List QRCodeRecord) (id : Nat) : List QRCodeRecord :=
  store.map fun r => if r.id = id then { r with scans := r.scans + 1 } else r

/-- `n` sequential `recordScan` calls for the same id. -/
def recordScanN (store : List QRCodeRecord) (id : Nat) : Nat → List QRCodeRecord
  | 0 => store
  | n + 1 => recordScan (recordScanN store id n) id

/-! ## JavaScript `Number()` conversion of strings

The scan route converts the path parameter with `Number(idParam)` and
guards with `Number.isNaN`.  We embed the ECMAScript StringToNumber
operation: trim whitespace; empty means 0; otherwise a signed decimal
literal (`digits`, `digits.digits`, `.digits`, optional exponent,
`Infinity`) or an unsigned `0x`/`0o`/`0b` radix literal.  `none` stands for
NaN.  Finite values are carried exactly in decimal-scaled form; the claims
under verification only compare them with small integers, where the double
rounding JS would apply is the identity. -/

/-- A finite JS number produced by string conversion, represented exactly
as `m * 10 ^ e` (decimal literals and radix literals are all of this form;
no rounding is applied, which is faithful for the small integral ids the
claims are about). -/
structure DecNum where
  m : Int
  e : Int
  deriving DecidableEq, Repr

/-- Whether the value `m * 10 ^ e` equals the natural number `k`. -/
def DecNum.eqNat (d : DecNum) (k : Nat) : Bool :=
  if 0 ≤ d.e then d.m * (10 : Int) ^ d.e.toNat = (k : Int)
  else d.m = (k : Int) * (10 : Int) ^ (-d.e).toNat

/-- A JavaScript number: a finite value or a signed infinity. -/
inductive JSNum where
  | finite (v : DecNum)
  | posInf
  | negInf
  deriving DecidableEq, Repr

/-- The `StrWhiteSpace` characters trimmed by StringToNumber (white space
and line terminators; representative set including the ASCII ones, NBSP,
BOM and the Unicode line separators). -/
def isJsWhitespace (c : Char) : Bool :=
  c = ' ' || c = '\t' || c = '\n' || c = '\r' ||
    c.toNat = 11 || c.toNat = 12 || c.toNat = 160 ||
    c.toNat = 0x2028 || c.toNat = 0x2029 || c.toNat = 0xfeff

/-- Value of one hexadecimal digit character. -/
def hexDigitVal (c : Char) : Option Nat :=
  if '0' ≤ c ∧ c ≤ '9' then some (c.toNat - '0'.toNat)
  else if 'a' ≤ c ∧ c ≤ 'f' then some (c.toNat - 'a'.toNat + 10)
  else if 'A' ≤ c ∧ c ≤ 'F' then some (c.toNat - 'A'.toNat + 10)
  else none

/-- Value of a nonempty digit string in radix `b` (digits must be below
`b`); `none` on an empty string or an out-of-range digit. -/
def radixVal (b : Nat) (l : List Char) : Option Nat :=
  if l = [] then none
  else
    l.foldl (fun acc c =>
      match acc, hexDigitVal c with
      | some a, some d => if d < b then some (a * b + d) else none
      | _, _ => none) (some 0)

/-- Exponent part of a decimal literal: empty means exponent 0; otherwise
`e`/`E`, an optional sign and a nonempty run of digits consuming the rest. -/
def parseExpPart (l : List Char) : Option Int :=
  match l with
  | [] => some 0
  | c :: rest =>
    if c = 'e' ∨ c = 'E' then
      match rest with
      | '+' :: ds =>
        if ds ≠ [] ∧ ds.all Char.isDigit then some (digitsVal ds) else none
      | '-' :: ds =>
        if ds ≠ [] ∧ ds.all Char.isDigit then some (-(digitsVal ds : Int)) else none
      | ds =>
        if ds ≠ [] ∧ ds.all Char.isDigit then some (digitsVal ds) else none
    else none

/-- `StrUnsignedDecimalLiteral`: `Infinity`, or an integer part with
optional fraction and exponent (at least one digit somewhere), consuming
the whole string. -/
def parseUnsignedDec (l : List Char) : Option JSNum :=
  if l = "Infinity".data then some .posInf
  else
    let ip := l.takeWhile Char.isDigit
    match l.dropWhile Char.isDigit with
    | '.' :: rest2 =>
      let fp := rest2.takeWhile Char.isDigit
      if ip = [] ∧ fp = [] then none
      else
        (parseExpPart (rest2.dropWhile Char.isDigit)).map fun e =>
          .finite ⟨(digitsVal (ip ++ fp) : Int), e - fp.length⟩
    | rest1 =>
      if ip = [] then none
      else (parseExpPart rest1).map fun e => .finite ⟨(digitsVal ip : Int), e⟩

/-- JS unary minus on a number. -/
def jsNegate : JSNum → JSNum
  | .finite d => .finite ⟨-d.m, d.e⟩
  | .posInf => .negInf
  | .negInf => .posInf

/-- `StrDecimalLiteral`: optional sign, then an unsigned decimal literal. -/
def parseSignedDec (l : List Char) : Option JSNum :=
  match l with
  | '+' :: rest => parseUnsignedDec rest
  | '-' :: rest => (parseUnsignedDec rest).map jsNegate
  | _ => parseUnsignedDec l

/-- ECMAScript `StringToNumber`, i.e. what `Number(s)` does to a string:
`none` models NaN. -/
def jsStringToNumber (s : String) : Option JSNum :=
  let t := ((s.data.dropWhile isJsWhitespace).reverse.dropWhile isJsWhitespace).reverse
  match t with
  | [] => some (.finite ⟨0, 0⟩)
  | '0' :: c :: rest =>
    if c = 'x' ∨ c = 'X' then (radixVal 16 rest).map fun n => .finite ⟨(n : Int), 0⟩
    else if c = 'o' ∨ c = 'O' then (radixVal 8 rest).map fun n => .finite ⟨(n : Int), 0⟩
    else if c = 'b' ∨ c = 'B' then (radixVal 2 rest).map fun n => .finite ⟨(n : Int), 0⟩
    else parseSignedDec t
  | _ => parseSignedDec t

/-! ## The scan route (`app/routes/qrcodes.$id.scan.tsx`)

The loader reads `params.id`, answers 400 when it is missing or falsy or
when `Number(idParam)` is NaN, looks the row up (`getQRCodeRecord`),
answers 404 when there is none, derives the destination URL (throwing on a
malformed variant id), increments the scan counter and redirects.  We track
the store operations the loader performs alongside the response and the
updated store. -/

/-- One operation against the persistent store. -/
inductive StoreOp where
  | lookup (n : JSNum)
  | increment (id : Nat)
  deriving DecidableEq, Repr

/-- The loader's observable response: 400, 404, a 302 redirect, or the
thrown invariant error (a 500-class failure). -/
inductive ScanResult where
  | badRequest
  | notFound
  | redirect (url : String)
  | serverError
  deriving DecidableEq, Repr

/-- `getQRCodeRecord(id)`: `findFirst` on the id column; a row matches when
its integer id equals the value of the JS number. -/
def getQRCodeRecord (store : List QRCodeRecord) (n : JSNum) : Option QRCodeRecord :=
  store.find? fun r =>
    match n with
    | .finite d => d.eqNat r.id
    | _ => false

/-- The scan route loader.  `idParam = none` models an absent `params.id`;
the guard `if (!idParam)` also fires on the empty string, which is falsy. -/
def scanLoader (store : List QRCodeRecord) (idParam : Option String) :
    ScanResult × List StoreOp × List QRCodeRecord :=
  match idParam with
  | none => (.badRequest, [], store)
  | some s =>
    if s = "" then (.badRequest, [], store)
    else
      match jsStringToNumber s with
      | none => (.badRequest, [], store)
      | some n =>
        match getQRCodeRecord store n with
        | none => (.notFound, [.lookup n], store)
        | some q =>
          match getDestinationUrl q with
          | none => (.serverError, [.lookup n], store)
          | some url => (.redirect url, [.lookup n, .increment q.id], recordScan store q.id)

/-! ## QR image generation and enrichment (`getQRCodeImage`, `supplementQRCode`)

`getQRCodeImage` reads `process.env.SHOPIFY_APP_URL`; `!baseUrl` is true
both when the variable is absent and when it is the empty string, and the
function then throws.  Otherwise it resolves `/qrcodes/<id>/scan` against
the base URL and feeds the result to `qrcode.toDataURL`.  The `qrcode`
library and the WHATWG URL resolver are external collaborators, passed in
as `toDataURL` and `resolve`.

`supplementQRCode` merges the stored row, the generated image and the
GraphQL `ProductData` response (`product.title`, `product.featuredImage.url`,
`productVariant.price`, each of which may be null, as may `data` itself). -/

/-- The `product` object of the GraphQL response. -/
structure ProductInfo where
  title : String
  featuredImage : Option String
  deriving DecidableEq, Repr

/-- The `productVariant` object of the GraphQL response. -/
structure VariantInfo where
  price : String
  deriving DecidableEq, Repr

/-- The `data` object of the GraphQL response; either field may be null
when the product was deleted upstream. -/
structure GraphQLData where
  product : Option ProductInfo
  productVariant : Option VariantInfo
  deriving DecidableEq, Repr

/-- `getQRCodeImage(id)`: fail when the base URL is unset (or empty, which
is equally falsy), else produce the data URL for the scan URL
`new URL("/qrcodes/" + id + "/scan", baseUrl).href`. -/
def getQRCodeImage (toDataURL : String → String) (resolve : String → String → String)
    (baseUrl : Option String) (id : Nat) : Except String String :=
  match baseUrl with
  | none => .error "SHOPIFY_APP_URL is not set in the environment"
  | some b =>
    if b = "" then .error "SHOPIFY_APP_URL is not set in the environment"
    else .ok (toDataURL (resolve b ("/qrcodes/" ++ toString id ++ "/scan")))

/-- The merged object `supplementQRCode` returns: every field of the stored
row, the QR image, and the three best-effort product fields. -/
structure EnrichedQRCode where
  id : Nat
  shop : String
  title : String
  productId : String
  productVariantId : String
  productHandle : String
  destination : String
  scans : Nat
  createdAt : Nat
  qrImage : String
  productTitle : Option String
  productImage : Option String
  price : Option String
  deriving DecidableEq, Repr

/-- The stored-row part of an enriched object. -/
def EnrichedQRCode.toRecord (e : EnrichedQRCode) : QRCodeRecord :=
  { id := e.id, shop := e.shop, title := e.title, productId := e.productId,
    productVariantId := e.productVariantId, productHandle := e.productHandle,
    destination := e.destination, scans := e.scans, createdAt := e.createdAt }

/-- `supplementQRCode(qrCode, graphql)`: spread the row, attach the image,
and derive `productTitle`, `productImage` and `price` with null-tolerant
conditionals (`data ? data.product : null`, etc.).  `response` is the
already-parsed `json.data`, which may itself be null.  The thrown
misconfiguration error of `getQRCodeImage` propagates. -/
def supplementQRCode (toDataURL : String → String) (resolve : String → String → String)
    (baseUrl : Option String) (q : QRCodeRecord) (response : Option GraphQLData) :
    Except String EnrichedQRCode :=
  match getQRCodeImage toDataURL resolve baseUrl q.id with
  | .error e => .error e
  | .ok qrImage =>
    let product := response.bind GraphQLData.product
    let productVariant := response.bind GraphQLData.productVariant
    .ok {
      id := q.id, shop := q.shop, title := q.title, productId := q.productId,
      productVariantId := q.productVariantId, productHandle := q.productHandle,
      destination := q.destination, scans := q.scans, createdAt := q.createdAt,
      qrImage := qrImage,
      productTitle := product.map ProductInfo.title,
      productImage := product.bind ProductInfo.featuredImage,
      price := productVariant.map VariantInfo.price }

/-! ## Listing (`getQRCodes`)

`getQRCodes(shop, graphql)` runs `findMany({ where: { shop }, orderBy:
{ id: "desc" } })`, returns `[]` for an empty result before touching
anything else, and otherwise enriches the rows one by one in a loop.
`findMany` with a descending order clause is modelled as filtering the
store and insertion-sorting by id, descending. -/

/-- Insert a row into a list sorted by descending id. -/
def insertByIdDesc (r : QRCodeRecord) : List QRCodeRecord → List QRCodeRecord
  | [] => [r]
  | x :: xs => if x.id ≤ r.id then r :: x :: xs else x :: insertByIdDesc r xs

/-- Sort rows by descending id. -/
def sortByIdDesc : List QRCodeRecord → List QRCodeRecord
  | [] => []
  | x :: xs => insertByIdDesc x (sortByIdDesc xs)

/-- `findMany({ where: { shop }, orderBy: { id: "desc" } })`. -/
def findManyByShop (store : List QRCodeRecord) (shop : String) : List QRCodeRecord :=
  sortByIdDesc (store.filter fun r => r.shop == shop)

/-- The enrichment loop of `getQRCodes`: each row in order, stopping at the
first thrown error. -/
def supplementAll (toDataURL : String → String) (resolve : String → String → String)
    (baseUrl : Option String) (remote : QRCodeRecord → Option GraphQLData) :
    List QRCodeRecord → Except String (List EnrichedQRCode)
  | [] => .ok []
  | q :: qs =>
    match supplementQRCode toDataURL resolve baseUrl q (remote q) with
    | .error e => .error e
    | .ok fq =>
      match supplementAll toDataURL resolve baseUrl remote qs with
      | .error e => .error e
      | .ok fqs => .ok (fq :: fqs)

/-- `getQRCodes(shop, graphql)`. -/
def getQRCodes (toDataURL : String → String) (resolve : String → String → String)
    (baseUrl : Option String) (store : List QRCodeRecord) (shop : String)
    (remote : QRCodeRecord → Option GraphQLData) : Except String (List EnrichedQRCode) :=
  if findManyByShop store shop = [] then .ok []
  else supplementAll toDataURL resolve baseUrl remote (findManyByShop store shop)

/-! ## Lemmas about the regex scan -/

lemma dropLeading_append (p s : List Char) : dropLeading p (p ++ s) = some s := by
  induction p with
  | nil => rfl
  | cons a p ih => simp [dropLeading, ih]

lemma eq_append_of_dropLeading :
    ∀ p s r : List Char, dropLeading p s = some r → s = p ++ r := by
  intro p
  induction p with
  | nil =>
    intro s r h
    simp [dropLeading] at h
    simp [h]
  | cons a p ih =>
    intro s r h
    cases s with
    | nil => simp [dropLeading] at h
    | cons b s =>
      by_cases hab : a = b
      · subst hab
        simp [dropLeading] at h
        simp [ih s r h]
      · simp [dropLeading, hab] at h

lemma pvLiteral_cons : pvLiteral = 'g' :: "id://shopify/ProductVariant/".data := rfl

lemma execPV_cons_some (c : Char) (tail r : List Char)
    (h : dropLeading pvLiteral (c :: tail) = some r) :
    execPV (c :: tail) =
      if r.takeWhile Char.isDigit = [] then execPV tail
      else some (r.takeWhile Char.isDigit) := by
  rw [execPV, h]

lemma execPV_cons_none (c : Char) (tail : List Char)
    (h : dropLeading pvLiteral (c :: tail) = none) :
    execPV (c :: tail) = execPV tail := by
  rw [execPV, h]

lemma takeWhile_eq_self_of_all {p : Char → Bool} (l : List Char)
    (h : ∀ c ∈ l, p c = true) : l.takeWhile p = l :=
  List.takeWhile_eq_self_iff.mpr h

lemma execPV_literal_append (ds : List Char) (hne : ds ≠ [])
    (hdig : ∀ c ∈ ds, c.isDigit = true) :
    execPV (pvLiteral ++ ds) = some ds := by
  have h : dropLeading pvLiteral ('g' :: ("id://shopify/ProductVariant/".data ++ ds)) =
      some ds := dropLeading_append pvLiteral ds
  show execPV ('g' :: ("id://shopify/ProductVariant/".data ++ ds)) = some ds
  rw [execPV_cons_some _ _ _ h]
  simp [takeWhile_eq_self_of_all ds hdig, hne]

lemma execPV_ne_none_of_contains :
    ∀ (pre : List Char) (c : Char) (rest : List Char), c.isDigit = true →
      execPV (pre ++ pvLiteral ++ (c :: rest)) ≠ none := by
  intro pre
  induction pre with
  | nil =>
    intro c rest hc
    have h : dropLeading pvLiteral
        ('g' :: ("id://shopify/ProductVariant/".data ++ (c :: rest))) =
        some (c :: rest) := dropLeading_append pvLiteral (c :: rest)
    show execPV ('g' :: ("id://shopify/ProductVariant/".data ++ (c :: rest))) ≠ none
    rw [execPV_cons_some _ _ _ h]
    simp [hc]
  | cons a pre ih =>
    intro c rest hc
    show execPV (a :: (pre ++ pvLiteral ++ (c :: rest))) ≠ none
    cases hdl : dropLeading pvLiteral (a :: (pre ++ pvLiteral ++ (c :: rest))) with
    | none =>
      rw [execPV_cons_none _ _ hdl]
      exact ih c rest hc
    | some r =>
      rw [execPV_cons_some _ _ _ hdl]
      by_cases htw : r.takeWhile Char.isDigit = []
      · rw [if_pos htw]
        exact ih c rest hc
      · rw [if_neg htw]
        simp

lemma contains_of_execPV_some :
    ∀ (s d : List Char), execPV s = some d → ContainsPV s := by
  intro s
  induction s with
  | nil => intro d h; simp [execPV] at h
  | cons c tail ih =>
    intro d h
    cases hdl : dropLeading pvLiteral (c :: tail) with
    | none =>
      rw [execPV_cons_none _ _ hdl] at h
      obtain ⟨pre, c', rest, heq, hc⟩ := ih d h
      exact ⟨c :: pre, c', rest, by simp [heq], hc⟩
    | some r =>
      rw [execPV_cons_some _ _ _ hdl] at h
      by_cases htw : r.takeWhile Char.isDigit = []
      · rw [if_pos htw] at h
        obtain ⟨pre, c', rest, heq, hc⟩ := ih d h
        exact ⟨c :: pre, c', rest, by simp [heq], hc⟩
      · cases r with
        | nil => simp at htw
        | cons r0 rs =>
          have hr0 : r0.isDigit = true := by
            by_contra hneg
            have hf : r0.isDigit = false := by simpa using hneg
            simp [hf] at htw
          exact ⟨[], r0, rs, by simpa using eq_append_of_dropLeading _ _ _ hdl, hr0⟩

/-- Claim C1: for a record whose `productVariantId` is exactly
`gid://shopify/ProductVariant/<digits>` and whose shop is `s`,
`getDestinationUrl` returns exactly `https://` ++ s ++ `/cart/` ++ digits ++ `:1`. -/
theorem c1_destination_url_for_valid_variant (q : QRCodeRecord) (ds : List Char)
    (hshape : q.productVariantId.data = pvLiteral ++ ds) (hne : ds ≠ [])
    (hdig : ∀ c ∈ ds, c.isDigit = true) :
    getDestinationUrl q =
      some ("https://" ++ q.shop ++ "/cart/" ++ String.mk ds ++ ":1") := by
  unfold getDestinationUrl
  rw [hshape, execPV_literal_append ds hne hdig]

/-- Claim C1 witness: the record with variant `gid://shopify/ProductVariant/555`
and shop `a.myshopify.com` resolves to `https://a.myshopify.com/cart/555:1`. -/
theorem c1_destination_url_for_valid_variant_witness :
    getDestinationUrl (mkRecord 7 "a.myshopify.com" "gid://shopify/ProductVariant/555") =
      some "https://a.myshopify.com/cart/555:1" := by
  have h := c1_destination_url_for_valid_variant
    (mkRecord 7 "a.myshopify.com" "gid://shopify/ProductVariant/555")
    ['5', '5', '5'] (by decide) (by decide) (by decide)
  exact h.trans (by decide)

/-- Claim C2 counterexample: `gid://shopify/ProductVariant/7x` does not match
the claimed shape `<platform-namespace>/ProductVariant/<positive-integer>`
(it ends in a non-digit), yet `getDestinationUrl` returns a URL for it,
because the regex search is unanchored. -/
theorem c2_counterexample :
    ¬ SpecVariantShape "gid://shopify/ProductVariant/7x" ∧
      getDestinationUrl (mkRecord 1 "a.myshopify.com" "gid://shopify/ProductVariant/7x") =
        some "https://a.myshopify.com/cart/7:1" := by
  constructor
  · rintro ⟨ns, ds, heq, hne, hdig, -⟩
    have hlast : ("gid://shopify/ProductVariant/7x".data).getLast? = some 'x' := by decide
    rw [heq, List.getLast?_append_of_ne_nil _ hne] at hlast
    exact absurd (hdig 'x' (List.mem_of_getLast?_eq_some hlast)) (by decide)
  · decide

/-- Claim C2 (amended): `getDestinationUrl` fails (returns no URL) exactly for
records whose `productVariantId` contains no occurrence of the substring
`gid://shopify/ProductVariant/` followed by at least one digit; here the
"only if" direction: no such occurrence implies failure. -/
theorem c2_amended_no_match_fails (q : QRCodeRecord)
    (h : ¬ ContainsPV q.productVariantId.data) :
    getDestinationUrl q = none := by
  unfold getDestinationUrl
  cases hex : execPV q.productVariantId.data with
  | none => rfl
  | some d => exact absurd (contains_of_execPV_some _ d hex) h

/-- Claim C2 (amended) witness: variant id `hello` contains no match, so
resolution fails. -/
theorem c2_amended_no_match_fails_witness :
    getDestinationUrl (mkRecord 2 "a.myshopify.com" "hello") = none := by
  refine c2_amended_no_match_fails _ ?_
  rintro ⟨pre, c, rest, heq, hdig⟩
  exact execPV_ne_none_of_contains pre c rest hdig (by rw [← heq]; decide)

lemma recordScan_length (store : List QRCodeRecord) (id : Nat) :
    (recordScan store id).length = store.length := by
  simp [recordScan]

lemma recordScan_getElem? (store : List QRCodeRecord) (id i : Nat) :
    (recordScan store id)[i]? =
      store[i]?.map fun r => if r.id = id then { r with scans := r.scans + 1 } else r := by
  simp [recordScan]

lemma recordScanN_getElem? (store : List QRCodeRecord) (id n i : Nat)
    (r : QRCodeRecord) (h : store[i]? = some r) :
    (recordScanN store id n)[i]? =
      some (if r.id = id then { r with scans := r.scans + n } else r) := by
  induction n with
  | zero =>
    rw [recordScanN, h]
    split <;> rfl
  | succ n ih =>
    by_cases hid : r.id = id
    · rw [recordScanN, recordScan_getElem?, ih]
      simp [hid, Nat.add_assoc]
    · rw [recordScanN, recordScan_getElem?, ih]
      simp [hid]

lemma getElem?_inj_of_nodup {α : Type} {l : List α} (h : l.Nodup) {i j : Nat} {a : α}
    (hi : l[i]? = some a) (hj : l[j]? = some a) : i = j := by
  obtain ⟨hi', hia⟩ := List.getElem?_eq_some.mp hi
  obtain ⟨hj', hja⟩ := List.getElem?_eq_some.mp hj
  exact (@List.Nodup.getElem_inj_iff _ _ h i hi' j hj').mp (hia.trans hja.symm)

/-- Claim C3: one `recordScan` call increments exactly the targeted record's
scan counter by 1, keeps all its other fields, and leaves every other record
(and the store's length) unchanged; `n` sequential calls starting from a
counter of 0 yield a counter of exactly `n`.  Ids are assumed distinct, as
for a primary-key column. -/
theorem c3_recordScan_increments (store : List QRCodeRecord) (r : QRCodeRecord)
    (i : Nat) (hi : store[i]? = some r)
    (hnd : (store.map QRCodeRecord.id).Nodup) :
    (recordScan store r.id).length = store.length ∧
    (recordScan store r.id)[i]? = some { r with scans := r.scans + 1 } ∧
    (∀ j, j ≠ i → (recordScan store r.id)[j]? = store[j]?) ∧
    (r.scans = 0 → ∀ n, (recordScanN store r.id n)[i]? = some { r with scans := n }) := by
  refine ⟨recordScan_length store r.id, ?_, ?_, ?_⟩
  · rw [recordScan_getElem?, hi]
    simp
  · intro j hj
    rw [recordScan_getElem?]
    cases hjv : store[j]? with
    | none => rfl
    | some r2 =>
      have hne : r2.id ≠ r.id := by
        intro hEq
        have h1 : (store.map QRCodeRecord.id)[i]? = some r.id := by
          rw [List.getElem?_map, hi]; rfl
        have h2 : (store.map QRCodeRecord.id)[j]? = some r.id := by
          rw [List.getElem?_map, hjv, Option.map_some']
          rw [hEq]
        exact hj (getElem?_inj_of_nodup hnd h2 h1)
      simp [hne]
  · intro h0 n
    rw [recordScanN_getElem? store r.id n i r hi]
    simp [h0]

/-- Claim C3 witness: in a two-row store, scanning the row with id 7 once
bumps its counter to 1 and leaves the other row alone, and five sequential
scans yield a counter of 5. -/
theorem c3_recordScan_increments_witness :
    (recordScan [mkRecord 7 "a.myshopify.com" "gid://shopify/ProductVariant/555",
        mkRecord 8 "a.myshopify.com" "gid://shopify/ProductVariant/556"] 7).length = 2 ∧
    (recordScan [mkRecord 7 "a.myshopify.com" "gid://shopify/ProductVariant/555",
        mkRecord 8 "a.myshopify.com" "gid://shopify/ProductVariant/556"] 7)[0]? =
      some { mkRecord 7 "a.myshopify.com" "gid://shopify/ProductVariant/555" with scans := 1 } ∧
    (∀ j, j ≠ 0 → (recordScan [mkRecord 7 "a.myshopify.com" "gid://shopify/ProductVariant/555",
        mkRecord 8 "a.myshopify.com" "gid://shopify/ProductVariant/556"] 7)[j]? =
      [mkRecord 7 "a.myshopify.com" "gid://shopify/ProductVariant/555",
        mkRecord 8 "a.myshopify.com" "gid://shopify/ProductVariant/556"][j]?) ∧
    ((mkRecord 7 "a.myshopify.com" "gid://shopify/ProductVariant/555").scans = 0 →
      ∀ n, (recordScanN [mkRecord 7 "a.myshopify.com" "gid://shopify/ProductVariant/555",
        mkRecord 8 "a.myshopify.com" "gid://shopify/ProductVariant/556"] 7 n)[0]? =
      some { mkRecord 7 "a.myshopify.com" "gid://shopify/ProductVariant/555" with scans := n }) := by
  have h := c3_recordScan_increments
    [mkRecord 7 "a.myshopify.com" "gid://shopify/ProductVariant/555",
      mkRecord 8 "a.myshopify.com" "gid://shopify/ProductVariant/556"]
    (mkRecord 7 "a.myshopify.com" "gid://shopify/ProductVariant/555")
    0 (by decide) (by decide)
  exact h

/-- Claim C4: when the path id parameter is missing, or does not convert to
a number (NaN), the scan endpoint responds 400 and performs no store
access: no lookup, no counter mutation, store unchanged. -/
theorem c4_bad_id_param_gives_400 (store : List QRCodeRecord) (idParam : Option String)
    (h : idParam = none ∨ ∃ s, idParam = some s ∧ jsStringToNumber s = none) :
    scanLoader store idParam = (.badRequest, [], store) := by
  rcases h with h | ⟨s, rfl, hnan⟩
  · rw [h]; rfl
  · by_cases hse : s = ""
    · simp [scanLoader, hse]
    · simp [scanLoader, hse, hnan]

/-- Claim C4 witness: the non-numeric id `abc` yields a 400 with no store
access. -/
theorem c4_bad_id_param_gives_400_witness :
    scanLoader [mkRecord 7 "a.myshopify.com" "gid://shopify/ProductVariant/555"]
        (some "abc") =
      (.badRequest, [], [mkRecord 7 "a.myshopify.com" "gid://shopify/ProductVariant/555"]) :=
  c4_bad_id_param_gives_400 _ (some "abc") (Or.inr ⟨"abc", rfl, by decide⟩)

/-- Claim C5: when the id converts to a number matching no stored record,
the scan endpoint responds 404 after a single lookup: no redirect, no
counter mutation, store unchanged. -/
theorem c5_unknown_id_gives_404 (store : List QRCodeRecord) (s : String) (n : JSNum)
    (hse : s ≠ "") (hn : jsStringToNumber s = some n)
    (hfind : getQRCodeRecord store n = none) :
    scanLoader store (some s) = (.notFound, [.lookup n], store) := by
  simp [scanLoader, hse, hn, hfind]

/-- Claim C5 witness: id `999` against a store holding only record 1 yields
a 404, one lookup, and an unchanged store. -/
theorem c5_unknown_id_gives_404_witness :
    scanLoader [mkRecord 1 "a.myshopify.com" "gid://shopify/ProductVariant/555"]
        (some "999") =
      (.notFound, [.lookup (.finite ⟨999, 0⟩)],
        [mkRecord 1 "a.myshopify.com" "gid://shopify/ProductVariant/555"]) :=
  c5_unknown_id_gives_404 _ "999" (.finite ⟨999, 0⟩) (by decide) (by decide) (by decide)

/-- Claim C10 counterexample: the empty id string converts to the non-NaN
number 0, yet the endpoint answers 400 and performs no store lookup (the
guard `if (!idParam)` fires on the falsy empty string), even when a record
with id 0 exists. -/
theorem c10_counterexample :
    jsStringToNumber "" = some (.finite ⟨0, 0⟩) ∧
      scanLoader [mkRecord 0 "a.myshopify.com" "gid://shopify/ProductVariant/555"]
          (some "") =
        (.badRequest, [], [mkRecord 0 "a.myshopify.com" "gid://shopify/ProductVariant/555"]) := by
  exact ⟨by decide, by decide⟩

/-- Claim C10 (amended): for every nonempty id string converting to a
non-NaN number — including non-integer, exponent, hexadecimal and
whitespace-padded forms — the endpoint does not answer 400 and its first
store operation is a lookup with the converted value. -/
theorem c10_amended_non_nan_proceeds_to_lookup (store : List QRCodeRecord)
    (s : String) (n : JSNum) (hse : s ≠ "") (hn : jsStringToNumber s = some n) :
    (scanLoader store (some s)).1 ≠ .badRequest ∧
      (scanLoader store (some s)).2.1.head? = some (.lookup n) := by
  cases hf : getQRCodeRecord store n with
  | none => simp [scanLoader, hse, hn, hf]
  | some q =>
    cases hd : getDestinationUrl q with
    | none => simp [scanLoader, hse, hn, hf, hd]
    | some url => simp [scanLoader, hse, hn, hf, hd]

/-- Claim C10 (amended) witness: the hexadecimal id `0x10` converts to 16;
the endpoint does not answer 400 and looks up the store with 16. -/
theorem c10_amended_non_nan_proceeds_to_lookup_witness :
    (scanLoader [mkRecord 16 "a.myshopify.com" "gid://shopify/ProductVariant/555"]
        (some "0x10")).1 ≠ ScanResult.badRequest ∧
      (scanLoader [mkRecord 16 "a.myshopify.com" "gid://shopify/ProductVariant/555"]
        (some "0x10")).2.1.head? = some (.lookup (.finite ⟨16, 0⟩)) :=
  c10_amended_non_nan_proceeds_to_lookup _ "0x10" (.finite ⟨16, 0⟩) (by decide) (by decide)

lemma supplementQRCode_ok_toRecord (toDataURL : String → String)
    (resolve : String → String → String) (baseUrl : Option String)
    (q : QRCodeRecord) (response : Option GraphQLData) (e : EnrichedQRCode)
    (h : supplementQRCode toDataURL resolve baseUrl q response = .ok e) :
    e.toRecord = q := by
  unfold supplementQRCode at h
  cases hb : getQRCodeImage toDataURL resolve baseUrl q.id with
  | error msg => rw [hb] at h; exact absurd h (by simp)
  | ok img =>
    rw [hb] at h
    simp only [Except.ok.injEq] at h
    subst h
    rfl

/-- Claim C9: QR image generation fails with the misconfiguration error
when the base-URL environment setting is absent (or empty, equally falsy),
never producing an image URL; with a configured base URL it produces the
data URL of the record's scan URL. -/
theorem c9_image_requires_base_url (toDataURL : String → String)
    (resolve : String → String → String) (id : Nat) :
    getQRCodeImage toDataURL resolve none id =
      .error "SHOPIFY_APP_URL is not set in the environment" ∧
    getQRCodeImage toDataURL resolve (some "") id =
      .error "SHOPIFY_APP_URL is not set in the environment" ∧
    ∀ b : String, b ≠ "" →
      getQRCodeImage toDataURL resolve (some b) id =
        .ok (toDataURL (resolve b ("/qrcodes/" ++ toString id ++ "/scan"))) := by
  refine ⟨rfl, by simp [getQRCodeImage], fun b hb => by simp [getQRCodeImage, hb]⟩

/-- Claim C9 witness: with a demo encoder and resolver, generation for
record 7 fails without a base URL and succeeds with one. -/
theorem c9_image_requires_base_url_witness :
    getQRCodeImage (fun s => "data:image/png;base64," ++ s) (fun b p => b ++ p) none 7 =
      .error "SHOPIFY_APP_URL is not set in the environment" ∧
    getQRCodeImage (fun s => "data:image/png;base64," ++ s) (fun b p => b ++ p) (some "") 7 =
      .error "SHOPIFY_APP_URL is not set in the environment" ∧
    getQRCodeImage (fun s => "data:image/png;base64," ++ s) (fun b p => b ++ p)
        (some "https://app.example.com") 7 =
      .ok "data:image/png;base64,https://app.example.com/qrcodes/7/scan" := by
  have h := c9_image_requires_base_url (fun s => "data:image/png;base64," ++ s)
    (fun b p => b ++ p) 7
  exact ⟨h.1, h.2.1, (h.2.2 "https://app.example.com" (by decide)).trans
    (congrArg Except.ok (by decide))⟩

/-- Claim C6: with the base URL configured, when the remote query returns
no product data (the product object is null — and with it the variant — or
`data` itself is null), enrichment still succeeds and returns the stored
fields with `productTitle`, `productImage` and `price` all absent. -/
theorem c6_missing_product_tolerated (toDataURL : String → String)
    (resolve : String → String → String) (b : String) (hb : b ≠ "")
    (q : QRCodeRecord) (response : Option GraphQLData)
    (hresp : response = some ⟨none, none⟩ ∨ response = none) :
    supplementQRCode toDataURL resolve (some b) q response =
      .ok { id := q.id, shop := q.shop, title := q.title, productId := q.productId,
            productVariantId := q.productVariantId, productHandle := q.productHandle,
            destination := q.destination, scans := q.scans, createdAt := q.createdAt,
            qrImage := toDataURL (resolve b ("/qrcodes/" ++ toString q.id ++ "/scan")),
            productTitle := none, productImage := none, price := none } := by
  rcases hresp with rfl | rfl <;> simp [supplementQRCode, getQRCodeImage, hb]

/-- Claim C6 witness: enriching record 7 with a null product response
succeeds, keeps the stored fields and leaves the derived fields absent. -/
theorem c6_missing_product_tolerated_witness :
    supplementQRCode (fun s => "data:image/png;base64," ++ s) (fun b p => b ++ p)
        (some "https://app.example.com")
        (mkRecord 7 "a.myshopify.com" "gid://shopify/ProductVariant/555")
        (some ⟨none, none⟩) =
      .ok { id := 7, shop := "a.myshopify.com", title := "Reorder QR",
            productId := "gid://shopify/Product/1",
            productVariantId := "gid://shopify/ProductVariant/555",
            productHandle := "example-product", destination := "checkout",
            scans := 0, createdAt := 0,
            qrImage := "data:image/png;base64,https://app.example.com/qrcodes/7/scan",
            productTitle := none, productImage := none, price := none } := by
  have h := c6_missing_product_tolerated (fun s => "data:image/png;base64," ++ s)
    (fun b p => b ++ p) "https://app.example.com" (by decide)
    (mkRecord 7 "a.myshopify.com" "gid://shopify/ProductVariant/555")
    (some ⟨none, none⟩) (Or.inl rfl)
  exact h.trans (congrArg Except.ok (by decide))

/-- Claim C7: whatever the outcome of the remote product query (and
whatever the external encoder and resolver do), an enriched object carries
every field of the stored record verbatim. -/
theorem c7_enrichment_keeps_record_fields (toDataURL : String → String)
    (resolve : String → String → String) (baseUrl : Option String)
    (q : QRCodeRecord) (response : Option GraphQLData) (e : EnrichedQRCode)
    (h : supplementQRCode toDataURL resolve baseUrl q response = .ok e) :
    e.id = q.id ∧ e.shop = q.shop ∧ e.title = q.title ∧ e.productId = q.productId ∧
    e.productVariantId = q.productVariantId ∧ e.productHandle = q.productHandle ∧
    e.destination = q.destination ∧ e.scans = q.scans ∧ e.createdAt = q.createdAt := by
  have ht := supplementQRCode_ok_toRecord toDataURL resolve baseUrl q response e h
  exact ⟨congrArg QRCodeRecord.id ht, congrArg QRCodeRecord.shop ht,
    congrArg QRCodeRecord.title ht, congrArg QRCodeRecord.productId ht,
    congrArg QRCodeRecord.productVariantId ht, congrArg QRCodeRecord.productHandle ht,
    congrArg QRCodeRecord.destination ht, congrArg QRCodeRecord.scans ht,
    congrArg QRCodeRecord.createdAt ht⟩

/-- Claim C7 witness: a fully populated remote response still leaves the
stored fields of record 7 untouched in the enriched object. -/
theorem c7_enrichment_keeps_record_fields_witness :
    (7 : Nat) = 7 ∧ "a.myshopify.com" = "a.myshopify.com" ∧
    "Reorder QR" = "Reorder QR" ∧ "gid://shopify/Product/1" = "gid://shopify/Product/1" ∧
    "gid://shopify/ProductVariant/555" = "gid://shopify/ProductVariant/555" ∧
    "example-product" = "example-product" ∧ "checkout" = "checkout" ∧
    (0 : Nat) = 0 ∧ (0 : Nat) = 0 := by
  have h := c7_enrichment_keeps_record_fields (fun s => "data:image/png;base64," ++ s)
    (fun b p => b ++ p) (some "https://app.example.com")
    (mkRecord 7 "a.myshopify.com" "gid://shopify/ProductVariant/555")
    (some ⟨some ⟨"Demo product", some "https://img.example/p.png"⟩, some ⟨"9.99"⟩⟩)
    { id := 7, shop := "a.myshopify.com", title := "Reorder QR",
      productId := "gid://shopify/Product/1",
      productVariantId := "gid://shopify/ProductVariant/555",
      productHandle := "example-product", destination := "checkout",
      scans := 0, createdAt := 0,
      qrImage := "data:image/png;base64,https://app.example.com/qrcodes/7/scan",
      productTitle := some "Demo product",
      productImage := some "https://img.example/p.png", price := some "9.99" }
    rfl
  exact h

lemma insertByIdDesc_perm (r : QRCodeRecord) (l : List QRCodeRecord) :
    (insertByIdDesc r l).Perm (r :: l) := by
  induction l with
  | nil => exact List.Perm.refl _
  | cons x xs ih =>
    unfold insertByIdDesc
    by_cases h : x.id ≤ r.id
    · rw [if_pos h]
    · rw [if_neg h]
      exact (ih.cons x).trans (List.Perm.swap r x xs)

lemma sortByIdDesc_perm (l : List QRCodeRecord) : (sortByIdDesc l).Perm l := by
  induction l with
  | nil => exact List.Perm.refl _
  | cons x xs ih => exact (insertByIdDesc_perm x (sortByIdDesc xs)).trans (ih.cons x)

lemma mem_insertByIdDesc {y r : QRCodeRecord} {l : List QRCodeRecord} :
    y ∈ insertByIdDesc r l ↔ y = r ∨ y ∈ l := by
  simpa using (insertByIdDesc_perm r l).mem_iff

lemma pairwise_insertByIdDesc (r : QRCodeRecord) (l : List QRCodeRecord)
    (h : List.Pairwise (fun a b => b.id ≤ a.id) l) :
    List.Pairwise (fun a b => b.id ≤ a.id) (insertByIdDesc r l) := by
  induction l with
  | nil => simp [insertByIdDesc]
  | cons x xs ih =>
    rw [List.pairwise_cons] at h
    obtain ⟨hx, hxs⟩ := h
    unfold insertByIdDesc
    by_cases hle : x.id ≤ r.id
    · rw [if_pos hle]
      refine List.pairwise_cons.mpr ⟨?_, List.pairwise_cons.mpr ⟨hx, hxs⟩⟩
      intro y hy
      rcases List.mem_cons.mp hy with rfl | hy
      · exact hle
      · exact (hx y hy).trans hle
    · rw [if_neg hle]
      refine List.pairwise_cons.mpr ⟨?_, ih hxs⟩
      intro y hy
      rcases mem_insertByIdDesc.mp hy with rfl | hy
      · exact Nat.le_of_lt (Nat.lt_of_not_le hle)
      · exact hx y hy

lemma sortByIdDesc_pairwise (l : List QRCodeRecord) :
    List.Pairwise (fun a b => b.id ≤ a.id) (sortByIdDesc l) := by
  induction l with
  | nil => simp [sortByIdDesc]
  | cons x xs ih => exact pairwise_insertByIdDesc x _ ih

lemma supplementAll_ok_map (toDataURL : String → String)
    (resolve : String → String → String) (baseUrl : Option String)
    (remote : QRCodeRecord → Option GraphQLData) :
    ∀ (l : List QRCodeRecord) (es : List EnrichedQRCode),
      supplementAll toDataURL resolve baseUrl remote l = .ok es →
      es.map EnrichedQRCode.toRecord = l := by
  intro l
  induction l with
  | nil =>
    intro es h
    simp only [supplementAll, Except.ok.injEq] at h
    subst h
    rfl
  | cons q qs ih =>
    intro es h
    unfold supplementAll at h
    cases hs : supplementQRCode toDataURL resolve baseUrl q (remote q) with
    | error e => rw [hs] at h; exact absurd h (by simp)
    | ok fq =>
      rw [hs] at h
      cases ha : supplementAll toDataURL resolve baseUrl remote qs with
      | error e => rw [ha] at h; exact absurd h (by simp)
      | ok fqs =>
        rw [ha] at h
        simp only [Except.ok.injEq] at h
        subst h
        simp only [List.map_cons, ih fqs ha,
          supplementQRCode_ok_toRecord toDataURL resolve baseUrl q (remote q) fq hs]

/-- Claim C8: `getQRCodes` returns exactly the shop's records, enriched,
ordered newest-first (by descending id; with ids assigned in creation
order this is most-recently-created first), and returns the empty list —
not an error — for a shop with no rows. -/
theorem c8_getQRCodes_shop_newest_first (toDataURL : String → String)
    (resolve : String → String → String) (baseUrl : Option String)
    (store : List QRCodeRecord) (shop : String)
    (remote : QRCodeRecord → Option GraphQLData)
    (hmono : ∀ r1 ∈ store, ∀ r2 ∈ store, r1.id ≤ r2.id → r1.createdAt ≤ r2.createdAt) :
    ((store.filter fun r => r.shop == shop) = [] →
      getQRCodes toDataURL resolve baseUrl store shop remote = .ok []) ∧
    ∀ es, getQRCodes toDataURL resolve baseUrl store shop remote = .ok es →
      (es.map EnrichedQRCode.toRecord).Perm (store.filter fun r => r.shop == shop) ∧
      (∀ e ∈ es, e.shop = shop) ∧
      (es.map EnrichedQRCode.toRecord).Pairwise
        (fun a b => b.id ≤ a.id ∧ b.createdAt ≤ a.createdAt) := by
  constructor
  · intro hf
    simp [getQRCodes, findManyByShop, hf, sortByIdDesc]
  · intro es h
    unfold getQRCodes at h
    by_cases hempty : findManyByShop store shop = []
    · rw [if_pos hempty] at h
      have hfil : (store.filter fun r => r.shop == shop) = [] := by
        have hp := sortByIdDesc_perm (store.filter fun r => r.shop == shop)
        rw [show sortByIdDesc (store.filter fun r => r.shop == shop) =
          findManyByShop store shop from rfl, hempty] at hp
        exact hp.symm.eq_nil
      simp only [Except.ok.injEq] at h
      subst h
      exact ⟨by simp [hfil], by simp, by simp⟩
    · rw [if_neg hempty] at h
      have hmap := supplementAll_ok_map toDataURL resolve baseUrl remote
        (findManyByShop store shop) es h
      refine ⟨?_, ?_, ?_⟩
      · rw [hmap]
        exact sortByIdDesc_perm _
      · intro e he
        have hm : e.toRecord ∈ es.map EnrichedQRCode.toRecord :=
          List.mem_map_of_mem _ he
        rw [hmap] at hm
        have hmem := (sortByIdDesc_perm _).mem_iff.mp hm
        simpa using (List.mem_filter.mp hmem).2
      · rw [hmap]
        refine List.Pairwise.imp_of_mem ?_ (sortByIdDesc_pairwise _)
        intro a b ha hb hid
        refine ⟨hid, ?_⟩
        have ha2 : a ∈ store := (List.mem_filter.mp ((sortByIdDesc_perm _).mem_iff.mp ha)).1
        have hb2 : b ∈ store := (List.mem_filter.mp ((sortByIdDesc_perm _).mem_iff.mp hb)).1
        exact hmono b hb2 a ha2 hid

/-- Claim C8 witness: a three-row store over two shops; listing shop `a`
yields its two records, enriched, with id 2 before id 1 (newest first), and
listing a shop with no rows yields the empty list. -/
theorem c8_getQRCodes_shop_newest_first_witness :
    getQRCodes (fun s => "data:image/png;base64," ++ s) (fun b p => b ++ p)
      (some "https://app.example.com")
      [mkRecord 1 "a.myshopify.com" "gid://shopify/ProductVariant/11",
       { mkRecord 2 "a.myshopify.com" "gid://shopify/ProductVariant/22" with createdAt := 1 },
       { mkRecord 3 "b.myshopify.com" "gid://shopify/ProductVariant/33" with createdAt := 2 }]
      "c.myshopify.com" (fun _ => none) = .ok [] ∧
    (([{ id := 2, shop := "a.myshopify.com", title := "Reorder QR",
         productId := "gid://shopify/Product/1",
         productVariantId := "gid://shopify/ProductVariant/22",
         productHandle := "example-product", destination := "checkout",
         scans := 0, createdAt := 1,
         qrImage := "data:image/png;base64,https://app.example.com/qrcodes/2/scan",
         productTitle := none, productImage := none, price := none },
       { id := 1, shop := "a.myshopify.com", title := "Reorder QR",
         productId := "gid://shopify/Product/1",
         productVariantId := "gid://shopify/ProductVariant/11",
         productHandle := "example-product", destination := "checkout",
         scans := 0, createdAt := 0,
         qrImage := "data:image/png;base64,https://app.example.com/qrcodes/1/scan",
         productTitle := none, productImage := none, price := none }] :
        List EnrichedQRCode).map EnrichedQRCode.toRecord).Perm
      ([mkRecord 1 "a.myshopify.com" "gid://shopify/ProductVariant/11",
        { mkRecord 2 "a.myshopify.com" "gid://shopify/ProductVariant/22" with createdAt := 1 },
        { mkRecord 3 "b.myshopify.com" "gid://shopify/ProductVariant/33" with createdAt := 2 }].filter
        fun r => r.shop == "a.myshopify.com") ∧
    (([{ id := 2, shop := "a.myshopify.com", title := "Reorder QR",
         productId := "gid://shopify/Product/1",
         productVariantId := "gid://shopify/ProductVariant/22",
         productHandle := "example-product", destination := "checkout",
         scans := 0, createdAt := 1,
         qrImage := "data:image/png;base64,https://app.example.com/qrcodes/2/scan",
         productTitle := none, productImage := none, price := none },
       { id := 1, shop := "a.myshopify.com", title := "Reorder QR",
         productId := "gid://shopify/Product/1",
         productVariantId := "gid://shopify/ProductVariant/11",
         productHandle := "example-product", destination := "checkout",
         scans := 0, createdAt := 0,
         qrImage := "data:image/png;base64,https://app.example.com/qrcodes/1/scan",
         productTitle := none, productImage := none, price := none }] :
        List EnrichedQRCode).map EnrichedQRCode.toRecord).Pairwise
      (fun a b => b.id ≤ a.id ∧ b.createdAt ≤ a.createdAt) := by
  have hm := c8_getQRCodes_shop_newest_first (fun s => "data:image/png;base64," ++ s)
    (fun b p => b ++ p) (some "https://app.example.com")
    [mkRecord 1 "a.myshopify.com" "gid://shopify/ProductVariant/11",
     { mkRecord 2 "a.myshopify.com" "gid://shopify/ProductVariant/22" with createdAt := 1 },
     { mkRecord 3 "b.myshopify.com" "gid://shopify/ProductVariant/33" with createdAt := 2 }]
    "a.myshopify.com" (fun _ => none) (by decide)
  have he := c8_getQRCodes_shop_newest_first (fun s => "data:image/png;base64," ++ s)
    (fun b p => b ++ p) (some "https://app.example.com")
    [mkRecord 1 "a.myshopify.com" "gid://shopify/ProductVariant/11",
     { mkRecord 2 "a.myshopify.com" "gid://shopify/ProductVariant/22" with createdAt := 1 },
     { mkRecord 3 "b.myshopify.com" "gid://shopify/ProductVariant/33" with createdAt := 2 }]
    "c.myshopify.com" (fun _ => none) (by decide)
  obtain ⟨hperm, hshops, hpair⟩ := hm.2 _ rfl
  exact ⟨he.1 (by decide), hperm, hpair⟩

end ShopifyQR
